import Mathlib

/-!
Verification of the device connection/reconnection lifecycle of the
robothub repository (packages robothub_oak and robothub_depthai): the
command log (CommandHistory), the Device builder methods, Device._start
replay, HubCamera start/stop, and DeviceManager shutdown.

The embedding renders the Python classes of
src/robothub_oak/{commands,device,hub_camera,manager}.py as pure Lean
functions.  Conventions used throughout:

* Python strings are rendered as natural-number codes (`Str := Nat`);
  the code 0 stands for the empty string, so Python truthiness of a
  string is `s != 0` and truthiness of an optional string is
  `isTruthy : Option Str -> Bool`.
* Python exceptions are rendered with `Except PyErr`; a function that
  cannot raise returns a plain value.
* Python objects that live on the heap and are shared by reference
  (the component descriptors referenced both by the Device dictionaries
  and by the recorded commands) live in an explicit `Store` keyed by a
  descriptor id; a command holds the id of the descriptor it populates,
  exactly as the Python command holds the object reference.
* The vendor SDK (depthai OakCamera) is out of scope and is rendered as
  an environment `Env` of outcome flags: each vendor factory call either
  succeeds, returning a fresh opaque handle, or raises, as decided by
  the corresponding flag.  The cloud stream service (robothub.STREAMS)
  is a global registry `GlobalStreams` plus a failure flag.
-/

namespace RobotHub

/-- Python strings, rendered as numeric codes; 0 encodes the empty string. -/
abbrev Str := Nat

/-- Truthiness of an optional Python string: None and the empty string are falsy. -/
def isTruthy : Option Str → Bool
  | none => false
  | some s => s != 0

/-- robothub.DeviceState (UNKNOWN, CONNECTING, CONNECTED, DISCONNECTED). -/
inductive DeviceState
  | unknown
  | connecting
  | connected
  | disconnected
deriving DecidableEq, BEq

/-- The camera board sockets that matter to HubCamera.has_color / has_left /
has_right (dai.CameraBoardSocket values appearing in hub_camera.py). -/
inductive Sensor
  | rgb
  | leftCam
  | rightCam
deriving DecidableEq, BEq

/-- Python exception classes raised by the embedded code.  Messages are
dropped; only the class is observable to the claims. -/
inductive PyErr
  | runtimeError
  | valueError
  | notImplementedError
  | exc
deriving DecidableEq, BEq

/-- The vendor capability object (depthai_sdk.OakCamera), out of scope: only
the data the wrapper reads from it is kept (the sensor list stored into
available_sensors by init_oak_camera, and the eeprom product name surfaced
by info_report). -/
structure OakCamera where
  sensors : List Sensor
  productName : Str
deriving DecidableEq

/-- Outcome flags for the out-of-scope vendor and cloud calls: `true` means
the call raises.  Each flag stands for one boundary call of section 6 of
the spec. -/
structure Env where
  camFail : Bool
  nnFail : Bool
  stereoFail : Bool
  triggerFail : Bool
  createVideoFails : Bool
deriving DecidableEq

/-- All boundary calls succeed. -/
def Env.ok (env : Env) : Prop :=
  env.camFail = false ∧ env.nnFail = false ∧ env.stereoFail = false ∧
    env.triggerFail = false ∧ env.createVideoFails = false

/-- The global robothub.STREAMS registry: unique key to stream handle. -/
abbrev GlobalStreams := List (Str × Nat)

/-- Association-list lookup, the rendering of a Python dict read. -/
def alookup {α : Type} (l : List (Nat × α)) (k : Nat) : Option α :=
  (l.find? (fun p => p.1 == k)).map (fun p => p.2)

/-- Association-list store, the rendering of a Python dict write: replaces the
value when the key is present, appends otherwise (dict insertion order). -/
def aset {α : Type} (l : List (Nat × α)) (k : Nat) (v : α) : List (Nat × α) :=
  if (l.find? (fun p => p.1 == k)).isSome then
    l.map (fun p => if p.1 == k then (p.1, v) else p)
  else
    l ++ [(k, v)]

/-- Updates the value at a key in place, leaving other entries untouched. -/
def aupdate {α : Type} (l : List (Nat × α)) (k : Nat) (f : α → α) : List (Nat × α) :=
  l.map (fun p => if p.1 == k then (p.1, f p.2) else p)

/-! ## Component descriptors (robothub_oak/components)

Each descriptor stores the requested configuration plus a nullable handle
to the vendor component (null until the corresponding command executes),
and the Streamable fields set by stream_to_hub. -/

/-- robothub_oak.components.camera.Camera: the value fields the lifecycle
reads.  cameraComponent is the vendor handle, none until built. -/
structure Camera where
  name : Str
  resolution : Option Nat
  fps : Option Nat
  cameraComponent : Option Nat
  streamEnabled : Bool
  streamName : Option Str
  streamKey : Option Str
deriving DecidableEq

/-- The input argument of a neural network: a reference to a Camera
descriptor or to another NeuralNetwork descriptor, by descriptor id
(the Python object reference). -/
inductive NNInput
  | cam (descId : Nat)
  | nn (descId : Nat)
deriving DecidableEq

/-- robothub_oak.components.neural_network.NeuralNetwork. -/
structure NeuralNetwork where
  name : Str
  input : NNInput
  nnType : Option Str
  tracker : Bool
  spatial : Option Bool
  nnComponent : Option Nat
  streamEnabled : Bool
  streamName : Option Str
  streamKey : Option Str
deriving DecidableEq

/-- robothub_oak.components.stereo.Stereo.  leftCamera and rightCamera
reference Camera descriptors by id. -/
structure Stereo where
  resolution : Option Nat
  fps : Option Nat
  leftCamera : Option Nat
  rightCamera : Option Nat
  stereoComponent : Option Nat
  streamEnabled : Bool
  streamName : Option Str
  streamKey : Option Str
deriving DecidableEq

/-- The heap of descriptor objects.  The Python descriptors are shared by
reference between the Device dictionaries and the recorded commands; here
both sides hold ids into this store.  nextId numbers fresh descriptors,
nextHandle numbers the opaque vendor handles. -/
structure Store where
  cameras : List (Nat × Camera)
  nns : List (Nat × NeuralNetwork)
  stereos : List (Nat × Stereo)
  nextId : Nat
  nextHandle : Nat
deriving DecidableEq

/-- robothub_oak.commands: the discriminated union of recorded commands.
Each creation command holds the id of the descriptor it will populate,
as the Python command object holds the descriptor reference.
CreateTriggerActionCommand has no addressable component. -/
inductive Command
  | createCamera (descId : Nat)
  | createNeuralNetwork (descId : Nat)
  | createStereo (descId : Nat)
  | createTriggerAction
deriving DecidableEq

/-- robothub_oak.commands.CommandHistory: an ordered list of commands. -/
abbrev CommandHistory := List Command

/-- CommandHistory.push: appends the command at the end. -/
def CommandHistory.push (h : CommandHistory) (c : Command) : CommandHistory :=
  h ++ [c]

/-- CommandHistory.pop: removes and returns the most recently pushed command
(Python list.pop); none on an empty history, where Python raises. -/
def CommandHistory.pop (h : CommandHistory) : Option (Command × CommandHistory) :=
  h.getLast?.map (fun c => (c, h.dropLast))

/-! ## HubCamera state (robothub_oak/hub_camera.py) -/

/-- The wrapper around one connected physical unit: connection state, the
stop event, the local stream registry (unique key to StreamHandle), the
sensor metadata and the capability object. -/
structure HubCamera where
  deviceName : Str
  state : DeviceState
  stopEventSet : Bool
  streams : List (Str × Nat)
  availableSensors : List Sensor
  oakCamera : Option OakCamera
deriving DecidableEq

/-- HubCamera.has_left: dai.CameraBoardSocket.LEFT in available_sensors. -/
def HubCamera.hasLeft (hc : HubCamera) : Bool :=
  hc.availableSensors.contains Sensor.leftCam

/-- HubCamera.has_right: dai.CameraBoardSocket.RIGHT in available_sensors. -/
def HubCamera.hasRight (hc : HubCamera) : Bool :=
  hc.availableSensors.contains Sensor.rightCam

/-- HubCamera.has_stereo: has_left and has_right. -/
def HubCamera.hasStereo (hc : HubCamera) : Bool :=
  hc.hasLeft && hc.hasRight

/-! ## Device state (robothub_oak/device.py) -/

/-- robothub_oak.device.Device: identity fields, the name-keyed descriptor
dictionaries (holding descriptor ids), the bound HubCamera (none while
disconnected) and the command history. -/
structure Device where
  id : Option Str
  name : Option Str
  mxid : Option Str
  ipAddress : Option Str
  cameras : List (Str × Nat)
  stereo : Option Nat
  neuralNetworks : List (Str × Nat)
  hubCamera : Option HubCamera
  commandHistory : CommandHistory
deriving DecidableEq

/-! ## Device builder methods

Each method runs synchronously on the Device and the descriptor store and
performs no boundary call: its only effects are descriptor allocation,
dictionary writes and a command push. -/

/-- Device.get_camera: returns the existing descriptor when the name was
already requested, else allocates a Camera descriptor, records it under
the name, pushes a CreateCameraCommand and returns the new descriptor id. -/
def Device.getCamera (d : Device) (st : Store) (name : Str)
    (resolution fps : Option Nat) : Nat × Device × Store :=
  match alookup d.cameras name with
  | some cid => (cid, d, st)
  | none =>
    let cid := st.nextId
    let cam : Camera :=
      { name := name, resolution := resolution, fps := fps,
        cameraComponent := none, streamEnabled := false,
        streamName := none, streamKey := none }
    (cid,
     { d with cameras := d.cameras ++ [(name, cid)],
              commandHistory := d.commandHistory.push (Command.createCamera cid) },
     { st with cameras := st.cameras ++ [(cid, cam)], nextId := cid + 1 })

/-- Device.create_neural_network of robothub_oak/device.py: returns the
entry of neural_networks when the name is present; raises ValueError when
no input is given; otherwise allocates the descriptor and pushes a
CreateNeuralNetworkCommand.  Note: the source never writes the new
descriptor into self.neural_networks (contrast get_camera). -/
def Device.createNeuralNetwork (d : Device) (st : Store) (name : Str)
    (input : Option NNInput) (nnType : Option Str) (tracker : Bool)
    (spatial : Option Bool) : Except PyErr (Nat × Device × Store) :=
  match alookup d.neuralNetworks name with
  | some nid => Except.ok (nid, d, st)
  | none =>
    match input with
    | none => Except.error PyErr.valueError
    | some inp =>
      let nid := st.nextId
      let nn : NeuralNetwork :=
        { name := name, input := inp, nnType := nnType, tracker := tracker,
          spatial := spatial, nnComponent := none, streamEnabled := false,
          streamName := none, streamKey := none }
      Except.ok (nid,
        { d with commandHistory :=
            d.commandHistory.push (Command.createNeuralNetwork nid) },
        { st with nns := st.nns ++ [(nid, nn)], nextId := nid + 1 })

/-- Device.get_stereo_camera: returns the existing stereo descriptor when
one exists (a device has at most one), else allocates it and pushes a
CreateStereoCommand. -/
def Device.getStereoCamera (d : Device) (st : Store)
    (resolution fps : Option Nat) (leftCamera rightCamera : Option Nat) :
    Nat × Device × Store :=
  match d.stereo with
  | some sid => (sid, d, st)
  | none =>
    let sid := st.nextId
    let s : Stereo :=
      { resolution := resolution, fps := fps, leftCamera := leftCamera,
        rightCamera := rightCamera, stereoComponent := none,
        streamEnabled := false, streamName := none, streamKey := none }
    (sid,
     { d with stereo := some sid,
              commandHistory := d.commandHistory.push (Command.createStereo sid) },
     { st with stereos := st.stereos ++ [(sid, s)], nextId := sid + 1 })

/-! ## HubCamera creation calls and streams -/

/-- HubCamera.create_stereo: raises RuntimeError when the device lacks the
left/right sensor pair, else forwards to the vendor factory (which raises
or returns a component handle as the environment decides). -/
def HubCamera.createStereo (hc : HubCamera) (env : Env) (handle : Nat) :
    Except PyErr Nat :=
  if !hc.hasStereo then Except.error PyErr.runtimeError
  else if env.stereoFail then Except.error PyErr.exc
  else Except.ok handle

/-- STREAMS.create_video: raises when the cloud call fails, else registers
a fresh handle under the key. -/
def createVideo (env : Env) (g : GlobalStreams) (key : Str) :
    Except PyErr (Nat × GlobalStreams) :=
  if env.createVideoFails then Except.error PyErr.exc
  else
    let h := g.length + 1
    Except.ok (h, g ++ [(key, h)])

/-- STREAMS.destroy_streams_by_id([key]). -/
def destroyStreamsById (g : GlobalStreams) (key : Str) : GlobalStreams :=
  g.filter (fun p => p.1 != key)

/-- HubCamera._create_stream: tries STREAMS.create_video; on an exception
destroys any stream registered under the key and tries once more, letting
a second exception propagate. -/
def HubCamera.createStreamHandle (env : Env) (g : GlobalStreams) (key : Str) :
    Except PyErr (Nat × GlobalStreams) :=
  match createVideo env g key with
  | Except.ok r => Except.ok r
  | Except.error _ => createVideo env (destroyStreamsById g key) key

/-- The component types a StreamCommand can stream, used for the
auto-generated unique key (the class name in the Python f-string). -/
inductive CompType
  | camera
  | nn
  | stereo
deriving DecidableEq

/-- The deterministic unique key generated by create_stream when the caller
supplies none: a rendering of the f-string built from the device name and
the component class name. -/
def autoKey (deviceName : Str) (t : CompType) : Str :=
  3 * deviceName + (match t with | CompType.camera => 0 | CompType.nn => 1 | CompType.stereo => 2)

/-- HubCamera.create_stream: generates the unique key when none is given,
reuses the handle registered in the global STREAMS registry under that key
when present, otherwise creates one (possibly raising); then records the
handle in the local registry self.streams.  The callback wiring only calls
back into the vendor object and is not observable here. -/
def HubCamera.createStream (hc : HubCamera) (env : Env) (g : GlobalStreams)
    (t : CompType) (uniqueKey : Option Str) :
    Except PyErr (HubCamera × GlobalStreams) :=
  let key := uniqueKey.getD (autoKey hc.deviceName t)
  match alookup g key with
  | some h =>
    Except.ok ({ hc with streams := aset hc.streams key h }, g)
  | none =>
    match HubCamera.createStreamHandle env g key with
    | Except.error e => Except.error e
    | Except.ok (h, g2) =>
      Except.ok ({ hc with streams := aset hc.streams key h }, g2)

/-! ## Command execution (robothub_oak/commands.py) -/

/-- The data the stream pass of Device._start reads from a command through
get_component: the built handle, the Streamable flags and the component
type.  CreateTriggerActionCommand yields no component. -/
structure CompInfo where
  handle : Option Nat
  streamEnabled : Bool
  streamKey : Option Str
  ctype : CompType
deriving DecidableEq

/-- Command.get_component, projected to the fields the lifecycle reads. -/
def getComponentInfo (st : Store) : Command → Option CompInfo
  | Command.createCamera cid =>
    (alookup st.cameras cid).map (fun c =>
      ⟨c.cameraComponent, c.streamEnabled, c.streamKey, CompType.camera⟩)
  | Command.createNeuralNetwork nid =>
    (alookup st.nns nid).map (fun n =>
      ⟨n.nnComponent, n.streamEnabled, n.streamKey, CompType.nn⟩)
  | Command.createStereo sid =>
    (alookup st.stereos sid).map (fun s =>
      ⟨s.stereoComponent, s.streamEnabled, s.streamKey, CompType.stereo⟩)
  | Command.createTriggerAction => none

/-- Command.execute for each creation command, against a bound HubCamera:
the vendor factory call either raises (per the environment) or returns a
fresh handle which is written into the target descriptor, and into nothing
else.  A command whose descriptor id misses the store cannot arise from
the Device methods (the Python command holds the object itself); that
branch raises. -/
def execCommand (env : Env) (hub : HubCamera) (st : Store) :
    Command → Except PyErr Store
  | Command.createCamera cid =>
    match alookup st.cameras cid with
    | none => Except.error PyErr.exc
    | some _ =>
      if env.camFail then Except.error PyErr.exc
      else Except.ok { st with
        cameras := aupdate st.cameras cid
          (fun c => { c with cameraComponent := some st.nextHandle }),
        nextHandle := st.nextHandle + 1 }
  | Command.createNeuralNetwork nid =>
    match alookup st.nns nid with
    | none => Except.error PyErr.exc
    | some _ =>
      if env.nnFail then Except.error PyErr.exc
      else Except.ok { st with
        nns := aupdate st.nns nid
          (fun n => { n with nnComponent := some st.nextHandle }),
        nextHandle := st.nextHandle + 1 }
  | Command.createStereo sid =>
    match alookup st.stereos sid with
    | none => Except.error PyErr.exc
    | some _ =>
      match hub.createStereo env st.nextHandle with
      | Except.error e => Except.error e
      | Except.ok h =>
        Except.ok { st with
          stereos := aupdate st.stereos sid
            (fun s => { s with stereoComponent := some h }),
          nextHandle := st.nextHandle + 1 }
  | Command.createTriggerAction =>
    if env.triggerFail then Except.error PyErr.exc else Except.ok st

/-! ## Device._start (robothub_oak/device.py lines 62-101) -/

/-- The isinstance(command, CreateStereoCommand) test of _start. -/
def isStereoCmd : Command → Bool
  | Command.createStereo _ => true
  | _ => false

/-- The main replay loop of Device._start: iterates the command history in
order; a CreateStereoCommand is skipped with a warning when the capability
object reports no stereo sensors; every other command is bound and
executed.  Returns the store after the last executed command, the list of
commands that executed (in execution order) and the first exception, if
one was raised (the Python except block turns it into a False return). -/
def runCommands (env : Env) (hub : HubCamera) :
    Store → List Command → Store × List Command × Option PyErr
  | st, [] => (st, [], none)
  | st, c :: rest =>
    if isStereoCmd c && !hub.hasStereo then
      runCommands env hub st rest
    else
      match execCommand env hub st c with
      | Except.error e => (st, [], some e)
      | Except.ok st2 =>
        let (st3, tr, e) := runCommands env hub st2 rest
        (st3, c :: tr, e)

/-- StreamCommand.execute for one command of the follow-up pass: reads the
built handle of the component (raising as Python does when it is null,
since create_stream dereferences it) and calls create_stream with the
component stream key. -/
def execStream (env : Env) (hub : HubCamera) (g : GlobalStreams)
    (comp : CompInfo) : Except PyErr (HubCamera × GlobalStreams) :=
  match comp.handle with
  | none => Except.error PyErr.exc
  | some _ => hub.createStream env g comp.ctype comp.streamKey

/-- The second pass of Device._start: iterates the command history again;
skips commands with no addressable component, skips a stereo command whose
component was never built (the skip-with-warning case), and executes a
StreamCommand for every remaining component with streaming enabled.  This
pass runs outside the try block of _start: its first exception propagates
(returned here as some error). -/
def streamPass (env : Env) (st : Store) :
    HubCamera → GlobalStreams → List Command →
    HubCamera × GlobalStreams × Option PyErr
  | hub, g, [] => (hub, g, none)
  | hub, g, c :: rest =>
    match getComponentInfo st c with
    | none => streamPass env st hub g rest
    | some comp =>
      if isStereoCmd c && comp.handle == none then
        streamPass env st hub g rest
      else if comp.streamEnabled then
        match execStream env hub g comp with
        | Except.error e => (hub, g, some e)
        | Except.ok (hub2, g2) => streamPass env st hub2 g2 rest
      else
        streamPass env st hub g rest

/-- Everything Device._start produces: the value returned to the caller
(an exception when one escaped _start), and the final device, store,
hub camera, global stream registry and execution trace. -/
structure StartOutcome where
  returned : Except PyErr Bool
  device : Device
  store : Store
  hub : HubCamera
  gstreams : GlobalStreams
  trace : List Command

/-- Device._start: returns False at once when the capability object is
absent; binds the hub camera and fills in the product name; replays the
command history, turning any exception of the main loop into a False
return; then runs the stream pass, whose exceptions escape; returns True
when every command and stream creation went through. -/
def Device.start (env : Env) (d : Device) (hub : HubCamera)
    (g : GlobalStreams) (st : Store) : StartOutcome :=
  match hub.oakCamera with
  | none => ⟨Except.ok false, d, st, hub, g, []⟩
  | some oak =>
    let d1 := { d with
      hubCamera := some hub,
      name := if isTruthy d.name then d.name else some oak.productName }
    match runCommands env hub st d1.commandHistory with
    | (st2, tr, some _) => ⟨Except.ok false, d1, st2, hub, g, tr⟩
    | (st2, tr, none) =>
      match streamPass env st2 hub g d1.commandHistory with
      | (hub2, g2, none) => ⟨Except.ok true, d1, st2, hub2, g2, tr⟩
      | (hub2, g2, some e) => ⟨Except.error e, d1, st2, hub2, g2, tr⟩

/-! ## HubCamera lifecycle (init, start, stop) -/

/-- HubCamera.init_oak_camera: loops while the stop event is clear, trying
to instantiate the capability object for a bounded window; on success also
stores the sensor metadata.  The hardware outcome of the whole window is
abstracted as avail (some capability object, or none for a timeout).
When the stop event is already set the loop body never runs and the
method returns None. -/
def HubCamera.initOakCamera (hc : HubCamera) (avail : Option OakCamera) :
    Option OakCamera × HubCamera :=
  if hc.stopEventSet then (none, hc)
  else
    match avail with
    | some cam => (some cam, { hc with availableSensors := cam.sensors })
    | none => (none, hc)

/-- One STREAMS.destroy call with its except ValueError: pass guard: every
entry carrying the destroyed handle leaves the global registry; a missing
handle raises ValueError, which the caller suppresses, leaving the
registry unchanged (the filter is then the identity). -/
def destroyCaught (g : GlobalStreams) (h : Nat) : GlobalStreams :=
  g.filter (fun p => p.2 != h)

/-- HubCamera.stop: sets the stop event, destroys every registered stream
(suppressing ValueError per stream), clears the local registry, sets the
state to DISCONNECTED, closes the capability object when present and
drops it, and clears the sensor metadata. -/
def HubCamera.stop (hc : HubCamera) (g : GlobalStreams) :
    HubCamera × GlobalStreams :=
  let g2 := hc.streams.foldl (fun acc p => destroyCaught acc p.2) g
  ({ hc with stopEventSet := true, streams := [],
             state := DeviceState.disconnected, oakCamera := none,
             availableSensors := [] }, g2)

/-- The retry loop of HubCamera.start: att i tells whether the i-th
attempt to start the pipeline succeeds, stopSet i whether the stop event
is observed set at the top of iteration i.  Each failed attempt waits one
second, so the elapsed time at iteration i is i seconds; the timeout
check (elapsed greater than 10) runs after a failed attempt.  Exiting the
while loop through the stop event falls off the function, returning
Python None.  The fuel (13) strictly exceeds the longest possible run of
the loop (attempts 0 through 11). -/
def startLoop (att stopSet : Nat → Bool) : Nat → Nat → Option Bool
  | 0, _ => none
  | fuel + 1, i =>
    if stopSet i then none
    else if att i then some true
    else if decide (i > 10) then some false
    else startLoop att stopSet fuel (i + 1)

/-- HubCamera.start: returns True at once when already CONNECTED, else
runs the retry loop; on a successful attempt sets the state to CONNECTED
and returns True; when the timeout elapses returns False; when the stop
event interrupts the loop, falls through returning None. -/
def HubCamera.start (hc : HubCamera) (att stopSet : Nat → Bool) :
    Option Bool × HubCamera :=
  if hc.state = DeviceState.connected then (some true, hc)
  else
    match startLoop att stopSet 13 0 with
    | some true => (some true, { hc with state := DeviceState.connected })
    | r => (r, hc)

/-! ## Device.restart (robothub_oak/device.py lines 103-118) -/

/-- Device.restart: when a HubCamera is bound, stops it, re-runs
init_oak_camera (avail abstracts what the hardware would yield within the
window) storing the result into oak_camera, and re-invokes _start,
discarding its boolean result; any exception escaping these steps is
caught and turned into a False return, else restart returns True.  The
bound HubCamera is the same Python object throughout, so the device ends
bound to the mutated camera. -/
def Device.restart (env : Env) (d : Device) (g : GlobalStreams) (st : Store)
    (avail : Option OakCamera) : Bool × Device × Store × GlobalStreams :=
  match d.hubCamera with
  | none => (true, d, st, g)
  | some hc =>
    let (hc1, g1) := hc.stop g
    let (oak2, hc1b) := hc1.initOakCamera avail
    let hc2 := { hc1b with oakCamera := oak2 }
    let out := Device.start env { d with hubCamera := some hc2 } hc2 g1 st
    match out.returned with
    | Except.error _ =>
      (false, { out.device with hubCamera := some out.hub }, out.store, out.gstreams)
    | Except.ok _ =>
      (true, { out.device with hubCamera := some out.hub }, out.store, out.gstreams)

/-! ## Device equality and DeviceManager.get_device
(robothub_oak/device.py lines 51-60, manager.py lines 212-235) -/

/-- Device.__eq__ against another Device: a disjunction over the four
identity fields, where each disjunct needs the field of the left operand
to be truthy (Python and short-circuits on None and on the empty string)
and equal on both sides. -/
def eqDevice (a b : Device) : Bool :=
  (isTruthy a.id && a.id == b.id) ||
  (isTruthy a.name && a.name == b.name) ||
  (isTruthy a.mxid && a.mxid == b.mxid) ||
  (isTruthy a.ipAddress && a.ipAddress == b.ipAddress)

/-- Device.__eq__ against a string: true when the string equals any of the
four identity fields, with no truthiness guard. -/
def eqDeviceStr (a : Device) (s : Str) : Bool :=
  a.id == some s || a.name == some s || a.mxid == some s || a.ipAddress == some s

/-- A device with only identity set, as DeviceManager.get_device builds it. -/
def mkDevice (id name mxid ipAddress : Option Str) : Device :=
  { id := id, name := name, mxid := mxid, ipAddress := ipAddress,
    cameras := [], stereo := none, neuralNetworks := [],
    hubCamera := none, commandHistory := [] }

/-- DeviceManager.get_device: raises ValueError when no identity argument
is truthy; builds a fresh Device; returns the first registered device that
compares equal (registered on the left of the comparison); otherwise
registers and returns the fresh one. -/
def getDevice (registered : List Device)
    (id name mxid ipAddress : Option Str) :
    Except PyErr (Device × List Device) :=
  if !(isTruthy id || isTruthy name || isTruthy mxid || isTruthy ipAddress) then
    Except.error PyErr.valueError
  else
    let device := mkDevice id name mxid ipAddress
    match registered.find? (fun d => eqDevice d device) with
    | some d => Except.ok (d, registered)
    | none => Except.ok (device, registered ++ [device])

/-! ## DeviceManager.stop (robothub_oak/manager.py lines 66-91)

The shutdown path is straight-line code whose observable behaviour is the
ordered sequence of boundary actions it performs; the embedding renders it
as a trace of events over inputs describing each resource and whether its
own call fails.  Every failure is suppressed within its step. -/

/-- The three background threads joined by DeviceManager.stop. -/
inductive ThreadId
  | connection
  | reporting
  | polling
deriving DecidableEq

/-- One thread as stop sees it: whether is_alive() holds and whether the
join call raises. -/
structure ThreadInfo where
  alive : Bool
  joinFails : Bool
deriving DecidableEq

/-- One live-camera entry of manager._hub_cameras at shutdown. -/
structure CamInfo where
  name : Str
  state : DeviceState
  stopFails : Bool
deriving DecidableEq

/-- The boundary events of DeviceManager.stop, in the order performed. -/
inductive StopEv
  | setStopEvent
  | joined (t : ThreadId)
  | joinFailed (t : ThreadId)
  | joinSkipped (t : ThreadId)
  | destroyedAllStreams
  | destroyAllStreamsFailed
  | closedCamera (n : Str)
  | closeCameraFailed (n : Str)
  | skippedCamera (n : Str)
deriving DecidableEq

/-- The inputs DeviceManager.stop runs against. -/
structure MgrInput where
  connectionThread : ThreadInfo
  reportingThread : ThreadInfo
  pollingThread : ThreadInfo
  destroyAllFails : Bool
  cameras : List CamInfo
deriving DecidableEq

/-- DeviceManager.__graceful_thread_join: joins the thread when alive,
catching (and only logging) a failing join. -/
def gracefulThreadJoin (t : ThreadId) (info : ThreadInfo) : StopEv :=
  if info.alive then
    (if info.joinFails then StopEv.joinFailed t else StopEv.joined t)
  else StopEv.joinSkipped t

/-- The per-camera step of the shutdown loop: cameras already DISCONNECTED
are not stopped; a raising camera.stop() is caught and logged. -/
def stopCameraStep (c : CamInfo) : StopEv :=
  if c.state = DeviceState.disconnected then StopEv.skippedCamera c.name
  else if c.stopFails then StopEv.closeCameraFailed c.name
  else StopEv.closedCamera c.name

/-- DeviceManager.stop: sets the stop event; joins the connection,
reporting and polling threads in that order; destroys every cloud stream
(catching a failure); then stops each live camera in turn (catching
per-camera failures).  The function is total: no failure flag prevents
the later events. -/
def managerStop (inp : MgrInput) : List StopEv :=
  [StopEv.setStopEvent,
   gracefulThreadJoin ThreadId.connection inp.connectionThread,
   gracefulThreadJoin ThreadId.reporting inp.reportingThread,
   gracefulThreadJoin ThreadId.polling inp.pollingThread,
   (if inp.destroyAllFails then StopEv.destroyAllStreamsFailed
    else StopEv.destroyedAllStreams)]
  ++ inp.cameras.map stopCameraStep

/-- The events that destroy cloud streams. -/
def isDestroyEv : StopEv → Bool
  | StopEv.destroyedAllStreams => true
  | StopEv.destroyAllStreamsFailed => true
  | _ => false

/-- The events that close (or try to close) a camera. -/
def isCloseEv : StopEv → Bool
  | StopEv.closedCamera _ => true
  | StopEv.closeCameraFailed _ => true
  | _ => false

/-! ## The older robothub_depthai layer (src/robothub_depthai/device.py)

Its Device.create_neural_network differs from the robothub_oak one: it
rejects a NeuralNetwork input with NotImplementedError before building the
descriptor, and keeps no name-keyed dictionary at all. -/

/-- robothub_depthai Device.create_neural_network, reduced to the observable
checks: raises NotImplementedError when the input is itself a neural
network, else allocates the descriptor and pushes the creation command. -/
def depthaiCreateNeuralNetwork (history : CommandHistory) (nextId : Nat)
    (input : NNInput) : Except PyErr (Nat × CommandHistory × Nat) :=
  match input with
  | NNInput.nn _ => Except.error PyErr.notImplementedError
  | NNInput.cam _ =>
    Except.ok (nextId, history.push (Command.createNeuralNetwork nextId), nextId + 1)

/-! ## Concrete sample values used by the claim theorems -/

/-- An empty descriptor store. -/
def emptyStore : Store :=
  { cameras := [], nns := [], stereos := [], nextId := 0, nextHandle := 0 }

/-- A device with no identity, no descriptors and an empty history. -/
def blankDevice : Device := mkDevice none none none none

/-- A command is well formed against a store when the descriptor it
references exists; the Python command holds the descriptor object itself,
so every command a Device builds is well formed by construction. -/
def cmdWellFormed (st : Store) : Command → Prop
  | Command.createCamera cid => (alookup st.cameras cid).isSome = true
  | Command.createNeuralNetwork nid => (alookup st.nns nid).isSome = true
  | Command.createStereo sid => (alookup st.stereos sid).isSome = true
  | Command.createTriggerAction => True

/-- The component of a non-stereo command, when it has one, carries a
built handle. -/
def nonStereoBuilt (st : Store) (c : Command) : Prop :=
  isStereoCmd c = false →
    ∀ ci, getComponentInfo st c = some ci → ci.handle ≠ none

/-- The attempt pattern of the spec scenario: the pipeline start raises on
the first two calls and succeeds on the third. -/
def attThird : Nat → Bool := fun i => decide (2 ≤ i)

/-- A camera in the UNKNOWN state, no streams, a capability object bound. -/
def freshHub : HubCamera :=
  { deviceName := 7, state := DeviceState.unknown, stopEventSet := false,
    streams := [], availableSensors := [Sensor.rgb],
    oakCamera := some { sensors := [Sensor.rgb], productName := 9 } }

/-- A device whose id is the empty string: the id field is present (not
None) and equal on both sides, yet __eq__ is False, because the Python
and short-circuits on the empty string. -/
def devEmptyId : Device := mkDevice (some 0) none none none

/-- `dA ~ dB` via id, `dB ~ dC` via name, but `dA` and `dC` share no
truthy field. -/
def devA : Device := mkDevice (some 1) (some 2) none none

/-- Shares its id with devA and its name with devC. -/
def devB : Device := mkDevice (some 1) (some 3) none none

/-- Shares its name with devB only. -/
def devC : Device := mkDevice (some 4) (some 3) none none

/-- The environment with every boundary call set to succeed. -/
def envAllOk : Env :=
  { camFail := false, nnFail := false, stereoFail := false,
    triggerFail := false, createVideoFails := false }

/-- A stereo descriptor as get_stereo_camera allocates it: unbuilt. -/
def stereoDemoDesc : Stereo :=
  { resolution := none, fps := none, leftCamera := none, rightCamera := none,
    stereoComponent := none, streamEnabled := false, streamName := none,
    streamKey := none }

/-- A store holding only the unbuilt stereo descriptor. -/
def stereoStoreDemo : Store :=
  { emptyStore with stereos := [(0, stereoDemoDesc)], nextId := 1 }

/-- A device whose history holds one stereo-creation command. -/
def stereoDevDemo : Device :=
  { blankDevice with
      stereo := some 0,
      commandHistory := [Command.createStereo 0] }

/-- A camera descriptor with streaming requested. -/
def streamCamDemo : Camera :=
  { name := 1, resolution := none, fps := none, cameraComponent := none,
    streamEnabled := true, streamName := some 5, streamKey := none }

/-- A store holding only the streaming camera descriptor. -/
def streamStoreDemo : Store :=
  { emptyStore with cameras := [(0, streamCamDemo)], nextId := 1 }

/-- A device with one camera-creation command for the streaming camera. -/
def streamDevDemo : Device :=
  { blankDevice with
      cameras := [(1, 0)],
      commandHistory := [Command.createCamera 0] }

/-- The environment where the cloud stream-creation call always raises. -/
def envVideoFail : Env :=
  { camFail := false, nnFail := false, stereoFail := false,
    triggerFail := false, createVideoFails := true }

/-- The oak capability object of the restart scenario. -/
def oakDemo : OakCamera := { sensors := [Sensor.rgb], productName := 9 }

/-- A device bound to a live HubCamera. -/
def boundDevDemo : Device := { blankDevice with hubCamera := some freshHub }

/-- A fresh device after one get_camera call: camDemo.1 is the camera
descriptor id, camDemo.2.1 the device, camDemo.2.2 the store. -/
def camDemo : Nat × Device × Store := blankDevice.getCamera emptyStore 1 none none

/-- Two create_neural_network calls with the same name and the same camera
input on the device of camDemo.  Returns the two descriptor ids and the
final device when both calls returned, none when either raised. -/
def afterTwoNNCalls : Option (Nat × Nat × Device) :=
  match camDemo.2.1.createNeuralNetwork camDemo.2.2 2
      (some (NNInput.cam camDemo.1)) none false none with
  | Except.error _ => none
  | Except.ok (nid1, d2, st2) =>
    match d2.createNeuralNetwork st2 2 (some (NNInput.cam camDemo.1)) none false none with
    | Except.error _ => none
    | Except.ok (nid2, d3, _) => some (nid1, nid2, d3)

/-- Counts the CreateNeuralNetworkCommand entries of a history. -/
def countNNCommands (h : CommandHistory) : Nat :=
  h.countP (fun c => match c with
    | Command.createNeuralNetwork _ => true
    | _ => false)

/-! # Lemmas -/

/-- Pushing a list of commands one by one yields exactly that list appended,
in order. -/
theorem foldl_push (cmds : List Command) :
    ∀ h : CommandHistory, List.foldl CommandHistory.push h cmds = h ++ cmds := by
  induction cmds with
  | nil => intro h; simp
  | cons c rest ih =>
    intro h
    simp only [List.foldl_cons, ih, CommandHistory.push]
    simp

/-- pop undoes push: it returns the most recently pushed command and the
history without it. -/
theorem pop_push (h : CommandHistory) (c : Command) :
    CommandHistory.pop (h.push c) = some (c, h) := by
  simp [CommandHistory.pop, CommandHistory.push, List.getLast?_concat,
    List.dropLast_concat]

/-- Looking a key up in an association list extended on the right finds the
old binding first. -/
theorem alookup_append {α : Type} (l l2 : List (Nat × α)) (k : Nat) :
    alookup (l ++ l2) k = ((alookup l k).or (alookup l2 k)) := by
  simp only [alookup, List.find?_append]
  cases l.find? (fun p => p.1 == k) <;> simp

/-- A key just appended to an association list is found with its value. -/
theorem alookup_append_self {α : Type} (l : List (Nat × α)) (k : Nat) (v : α) :
    alookup l k = none → alookup (l ++ [(k, v)]) k = some v := by
  intro h
  rw [alookup_append, h]
  simp [alookup]

/-- On a device with stereo sensors nothing is skipped, so the executed
commands form a left-to-right initial segment of the history. -/
theorem runCommands_trace_take (env : Env) (hub : HubCamera)
    (hst : hub.hasStereo = true) :
    ∀ (cmds : List Command) (st : Store),
      ∃ k, (runCommands env hub st cmds).2.1 = cmds.take k := by
  intro cmds
  induction cmds with
  | nil => intro st; exact ⟨0, rfl⟩
  | cons c rest ih =>
    intro st
    simp only [runCommands, hst, Bool.not_true, Bool.and_false]
    cases hexec : execCommand env hub st c with
    | error e => exact ⟨0, rfl⟩
    | ok st2 =>
      obtain ⟨k, hk⟩ := ih st2
      refine ⟨k + 1, ?_⟩
      simp [hk]

/-- On a device with stereo sensors, a replay that raised no exception
executed the entire history in order. -/
theorem runCommands_trace_all (env : Env) (hub : HubCamera)
    (hst : hub.hasStereo = true) :
    ∀ (cmds : List Command) (st : Store),
      (runCommands env hub st cmds).2.2 = none →
      (runCommands env hub st cmds).2.1 = cmds := by
  intro cmds
  induction cmds with
  | nil => intro st _; rfl
  | cons c rest ih =>
    intro st herr
    simp only [runCommands, hst, Bool.not_true, Bool.and_false] at herr ⊢
    cases hexec : execCommand env hub st c with
    | error e => rw [hexec] at herr; simp at herr
    | ok st2 =>
      rw [hexec] at herr
      simp only [Bool.false_eq_true, if_false] at herr ⊢
      rw [ih st2 herr]

/-- When a capability object is bound, the trace of Device._start is the
trace of the main replay loop over the history. -/
theorem start_trace_eq (env : Env) (d : Device) (hub : HubCamera)
    (g : GlobalStreams) (st : Store) (oak : OakCamera)
    (hoak : hub.oakCamera = some oak) :
    (Device.start env d hub g st).trace =
      (runCommands env hub st d.commandHistory).2.1 := by
  simp only [Device.start, hoak]
  rcases hrun : runCommands env hub st d.commandHistory with ⟨st2, tr, e⟩
  cases e with
  | none =>
    rcases hsp : streamPass env st2 hub g d.commandHistory with ⟨hub2, g2, e2⟩
    cases e2 <;> simp [hsp]
  | some e => simp

/-- Updating one key of an association list rewrites that value and
nothing else. -/
theorem alookup_aupdate {α : Type} (l : List (Nat × α)) (k k2 : Nat) (f : α → α) :
    alookup (aupdate l k f) k2 =
      if k2 == k then (alookup l k2).map f else alookup l k2 := by
  induction l with
  | nil => cases h : (k2 == k) <;> simp [aupdate, alookup, h]
  | cons p rest ih =>
    by_cases h1 : p.1 = k2
    · subst h1
      by_cases h2 : p.1 = k
      · simp [aupdate, alookup, h2, List.find?]
      · have h2b : (p.1 == k) = false := by simp [h2]
        simp [aupdate, alookup, h2b, List.find?, beq_iff_eq]
    · have h1b : (p.1 == k2) = false := by simp [h1]
      simp only [aupdate, alookup, List.map_cons, List.find?] at ih ⊢
      by_cases h2 : p.1 = k
      · simp only [h2, beq_self_eq_true, if_true] at ih ⊢
        have : ((k : Nat) == k2) = false := by
          simp only [beq_eq_false_iff_ne, ne_eq]
          intro habs
          exact h1 (by rw [h2, habs])
        rw [show p.1 = k from h2] at h1b
        simp only [h1b, this] at ih ⊢
        exact ih
      · have h2b : (p.1 == k) = false := by simp [h2]
        simp only [h2b, Bool.false_eq_true, if_false, h1b] at ih ⊢
        exact ih

/-- Updating a key keeps every key of the list in place. -/
theorem alookup_aupdate_isSome {α : Type} (l : List (Nat × α)) (k k2 : Nat)
    (f : α → α) :
    (alookup (aupdate l k f) k2).isSome = (alookup l k2).isSome := by
  rw [alookup_aupdate]
  cases h : (k2 == k) <;> simp

/-- A successful command execution preserves well-formedness of every
command: it only rewrites handles, never removes descriptors. -/
theorem execCommand_preserves_wf (env : Env) (hub : HubCamera) (st : Store)
    (c : Command) (st2 : Store) (h : execCommand env hub st c = Except.ok st2)
    (c2 : Command) (hwf : cmdWellFormed st c2) : cmdWellFormed st2 c2 := by
  cases c with
  | createCamera cid =>
    simp only [execCommand] at h
    cases hl : alookup st.cameras cid with
    | none => rw [hl] at h; exact absurd h (by simp)
    | some cam =>
      rw [hl] at h
      by_cases hf : env.camFail
      · simp [hf] at h
      · simp only [hf, Bool.false_eq_true, if_false, Except.ok.injEq] at h
        subst h
        cases c2 <;> simp_all [cmdWellFormed, alookup_aupdate_isSome]
  | createNeuralNetwork nid =>
    simp only [execCommand] at h
    cases hl : alookup st.nns nid with
    | none => rw [hl] at h; exact absurd h (by simp)
    | some nn =>
      rw [hl] at h
      by_cases hf : env.nnFail
      · simp [hf] at h
      · simp only [hf, Bool.false_eq_true, if_false, Except.ok.injEq] at h
        subst h
        cases c2 <;> simp_all [cmdWellFormed, alookup_aupdate_isSome]
  | createStereo sid =>
    simp only [execCommand] at h
    cases hl : alookup st.stereos sid with
    | none => rw [hl] at h; exact absurd h (by simp)
    | some s =>
      rw [hl] at h
      cases hcs : hub.createStereo env st.nextHandle with
      | error e => rw [hcs] at h; exact absurd h (by simp)
      | ok hdl =>
        rw [hcs] at h
        simp only [Except.ok.injEq] at h
        subst h
        cases c2 <;> simp_all [cmdWellFormed, alookup_aupdate_isSome]
  | createTriggerAction =>
    simp only [execCommand] at h
    by_cases hf : env.triggerFail
    · simp [hf] at h
    · simp only [hf, Bool.false_eq_true, if_false, Except.ok.injEq] at h
      subst h
      exact hwf

/-- A successful non-stereo execution leaves the stereo descriptors
untouched. -/
theorem execCommand_stereos (env : Env) (hub : HubCamera) (st : Store)
    (c : Command) (st2 : Store) (h : execCommand env hub st c = Except.ok st2)
    (hns : isStereoCmd c = false) : st2.stereos = st.stereos := by
  cases c with
  | createCamera cid =>
    simp only [execCommand] at h
    cases hl : alookup st.cameras cid with
    | none => rw [hl] at h; exact absurd h (by simp)
    | some cam =>
      rw [hl] at h
      by_cases hf : env.camFail
      · simp [hf] at h
      · simp only [hf, Bool.false_eq_true, if_false, Except.ok.injEq] at h
        subst h; rfl
  | createNeuralNetwork nid =>
    simp only [execCommand] at h
    cases hl : alookup st.nns nid with
    | none => rw [hl] at h; exact absurd h (by simp)
    | some nn =>
      rw [hl] at h
      by_cases hf : env.nnFail
      · simp [hf] at h
      · simp only [hf, Bool.false_eq_true, if_false, Except.ok.injEq] at h
        subst h; rfl
  | createStereo sid => simp [isStereoCmd] at hns
  | createTriggerAction =>
    simp only [execCommand] at h
    by_cases hf : env.triggerFail
    · simp [hf] at h
    · simp only [hf, Bool.false_eq_true, if_false, Except.ok.injEq] at h
      subst h; rfl

/-- Full characterisation of a successful command execution: exactly one
descriptor gains a handle (none for a trigger command). -/
theorem execCommand_ok_cases (env : Env) (hub : HubCamera) (st : Store)
    (c : Command) (st2 : Store) (h : execCommand env hub st c = Except.ok st2) :
    (∃ cid cam, c = Command.createCamera cid ∧
      alookup st.cameras cid = some cam ∧
      st2 = { st with
        cameras := aupdate st.cameras cid
          (fun c0 => { c0 with cameraComponent := some st.nextHandle }),
        nextHandle := st.nextHandle + 1 }) ∨
    (∃ nid nn, c = Command.createNeuralNetwork nid ∧
      alookup st.nns nid = some nn ∧
      st2 = { st with
        nns := aupdate st.nns nid
          (fun n0 => { n0 with nnComponent := some st.nextHandle }),
        nextHandle := st.nextHandle + 1 }) ∨
    (∃ sid s hdl, c = Command.createStereo sid ∧
      alookup st.stereos sid = some s ∧
      hub.createStereo env st.nextHandle = Except.ok hdl ∧
      st2 = { st with
        stereos := aupdate st.stereos sid
          (fun s0 => { s0 with stereoComponent := some hdl }),
        nextHandle := st.nextHandle + 1 }) ∨
    (c = Command.createTriggerAction ∧ st2 = st) := by
  cases c with
  | createCamera cid =>
    simp only [execCommand] at h
    cases hl : alookup st.cameras cid with
    | none => rw [hl] at h; exact absurd h (by simp)
    | some cam =>
      rw [hl] at h
      by_cases hf : env.camFail
      · simp [hf] at h
      · simp only [hf, Bool.false_eq_true, if_false, Except.ok.injEq] at h
        exact Or.inl ⟨cid, cam, rfl, hl, h.symm⟩
  | createNeuralNetwork nid =>
    simp only [execCommand] at h
    cases hl : alookup st.nns nid with
    | none => rw [hl] at h; exact absurd h (by simp)
    | some nn =>
      rw [hl] at h
      by_cases hf : env.nnFail
      · simp [hf] at h
      · simp only [hf, Bool.false_eq_true, if_false, Except.ok.injEq] at h
        exact Or.inr (Or.inl ⟨nid, nn, rfl, hl, h.symm⟩)
  | createStereo sid =>
    simp only [execCommand] at h
    cases hl : alookup st.stereos sid with
    | none => rw [hl] at h; exact absurd h (by simp)
    | some s =>
      rw [hl] at h
      cases hcs : hub.createStereo env st.nextHandle with
      | error e => rw [hcs] at h; exact absurd h (by simp)
      | ok hdl =>
        rw [hcs] at h
        simp only [Except.ok.injEq] at h
        exact Or.inr (Or.inr (Or.inl ⟨sid, s, hdl, rfl, hl, rfl, h.symm⟩))
  | createTriggerAction =>
    simp only [execCommand] at h
    by_cases hf : env.triggerFail
    · simp [hf] at h
    · simp only [hf, Bool.false_eq_true, if_false, Except.ok.injEq] at h
      exact Or.inr (Or.inr (Or.inr ⟨rfl, h.symm⟩))

/-- After a successful execution, a camera descriptor is either untouched
or has its handle set. -/
theorem execCommand_cameras_lookup (env : Env) (hub : HubCamera) (st : Store)
    (c0 : Command) (st2 : Store) (h : execCommand env hub st c0 = Except.ok st2)
    (cid : Nat) :
    alookup st2.cameras cid = alookup st.cameras cid ∨
    ∃ cam, alookup st.cameras cid = some cam ∧
      alookup st2.cameras cid = some { cam with cameraComponent := some st.nextHandle } := by
  rcases execCommand_ok_cases env hub st c0 st2 h with
    ⟨cid0, cam0, _, hl, hst2⟩ | ⟨nid0, nn0, _, hl, hst2⟩ |
    ⟨sid0, s0, hdl, _, hl, _, hst2⟩ | ⟨_, hst2⟩
  · subst hst2
    simp only [alookup_aupdate]
    cases hbeq : (cid == cid0) with
    | false => exact Or.inl (by simp)
    | true =>
      have : cid = cid0 := by simpa using hbeq
      subst this
      rw [hl]
      exact Or.inr ⟨cam0, rfl, by simp⟩
  · subst hst2; exact Or.inl rfl
  · subst hst2; exact Or.inl rfl
  · subst hst2; exact Or.inl rfl

/-- After a successful execution, a neural network descriptor is either
untouched or has its handle set. -/
theorem execCommand_nns_lookup (env : Env) (hub : HubCamera) (st : Store)
    (c0 : Command) (st2 : Store) (h : execCommand env hub st c0 = Except.ok st2)
    (nid : Nat) :
    alookup st2.nns nid = alookup st.nns nid ∨
    ∃ nn, alookup st.nns nid = some nn ∧
      alookup st2.nns nid = some { nn with nnComponent := some st.nextHandle } := by
  rcases execCommand_ok_cases env hub st c0 st2 h with
    ⟨cid0, cam0, _, hl, hst2⟩ | ⟨nid0, nn0, _, hl, hst2⟩ |
    ⟨sid0, s0, hdl, _, hl, _, hst2⟩ | ⟨_, hst2⟩
  · subst hst2; exact Or.inl rfl
  · subst hst2
    simp only [alookup_aupdate]
    cases hbeq : (nid == nid0) with
    | false => exact Or.inl (by simp)
    | true =>
      have : nid = nid0 := by simpa using hbeq
      subst this
      rw [hl]
      exact Or.inr ⟨nn0, rfl, by simp⟩
  · subst hst2; exact Or.inl rfl
  · subst hst2; exact Or.inl rfl

/-- A command that just executed successfully has a built component. -/
theorem execCommand_builds_self (env : Env) (hub : HubCamera) (st : Store)
    (c : Command) (st2 : Store) (h : execCommand env hub st c = Except.ok st2) :
    nonStereoBuilt st2 c := by
  intro hns ci hci
  rcases execCommand_ok_cases env hub st c st2 h with
    ⟨cid0, cam0, hc, hl, hst2⟩ | ⟨nid0, nn0, hc, hl, hst2⟩ |
    ⟨sid0, s0, hdl, hc, hl, _, hst2⟩ | ⟨hc, hst2⟩
  · subst hc
    have hcomp : getComponentInfo st2 (Command.createCamera cid0)
        = some ⟨some st.nextHandle, cam0.streamEnabled, cam0.streamKey,
            CompType.camera⟩ := by
      subst hst2
      simp [getComponentInfo, alookup_aupdate, hl]
    rw [hcomp] at hci
    simp only [Option.some.injEq] at hci
    rw [← hci]
    simp
  · subst hc
    have hcomp : getComponentInfo st2 (Command.createNeuralNetwork nid0)
        = some ⟨some st.nextHandle, nn0.streamEnabled, nn0.streamKey,
            CompType.nn⟩ := by
      subst hst2
      simp [getComponentInfo, alookup_aupdate, hl]
    rw [hcomp] at hci
    simp only [Option.some.injEq] at hci
    rw [← hci]
    simp
  · subst hc; simp [isStereoCmd] at hns
  · subst hc; simp [getComponentInfo] at hci

/-- A successful execution never clears another command's built handle. -/
theorem execCommand_preserves_built (env : Env) (hub : HubCamera) (st : Store)
    (c0 : Command) (st2 : Store) (h : execCommand env hub st c0 = Except.ok st2)
    (c : Command) (hb : nonStereoBuilt st c) : nonStereoBuilt st2 c := by
  intro hns ci hci
  cases c with
  | createCamera cid =>
    rcases execCommand_cameras_lookup env hub st c0 st2 h cid with heq | ⟨cam, hl, hl2⟩
    · rw [getComponentInfo, heq] at hci
      exact hb hns ci (by rw [getComponentInfo]; exact hci)
    · rw [getComponentInfo, hl2] at hci
      simp only [Option.map, Option.some.injEq] at hci
      rw [← hci]
      simp
  | createNeuralNetwork nid =>
    rcases execCommand_nns_lookup env hub st c0 st2 h nid with heq | ⟨nn, hl, hl2⟩
    · rw [getComponentInfo, heq] at hci
      exact hb hns ci (by rw [getComponentInfo]; exact hci)
    · rw [getComponentInfo, hl2] at hci
      simp only [Option.map, Option.some.injEq] at hci
      rw [← hci]
      simp
  | createStereo sid => simp [isStereoCmd] at hns
  | createTriggerAction => simp [getComponentInfo] at hci

/-- The replay loop never clears a built handle. -/
theorem runCommands_preserves_built (env : Env) (hub : HubCamera) :
    ∀ (cmds : List Command) (st : Store) (c : Command),
      nonStereoBuilt st c → nonStereoBuilt (runCommands env hub st cmds).1 c := by
  intro cmds
  induction cmds with
  | nil => intro st c hb; exact hb
  | cons c0 rest ih =>
    intro st c hb
    simp only [runCommands]
    by_cases hskip : (isStereoCmd c0 && !hub.hasStereo) = true
    · simp only [hskip, if_true]
      exact ih st c hb
    · simp only [hskip, if_false]
      cases hexec : execCommand env hub st c0 with
      | error e => exact hb
      | ok st2 =>
        simp only
        exact ih st2 c (execCommand_preserves_built env hub st c0 st2 hexec c hb)

/-- After a replay that raised nothing, every command of the history has a
built component (stereo commands aside: they may have been skipped). -/
theorem runCommands_builds (env : Env) (hub : HubCamera) :
    ∀ (cmds : List Command) (st : Store),
      (runCommands env hub st cmds).2.2 = none →
      ∀ c ∈ cmds, nonStereoBuilt (runCommands env hub st cmds).1 c := by
  intro cmds
  induction cmds with
  | nil => intro st _ c hc; simp at hc
  | cons c0 rest ih =>
    intro st herr c hc
    simp only [runCommands] at herr ⊢
    by_cases hskip : (isStereoCmd c0 && !hub.hasStereo) = true
    · simp only [hskip, if_true] at herr ⊢
      rcases List.mem_cons.mp hc with rfl | hc2
      · intro hns
        exact absurd (Bool.and_elim_left hskip) (by simp [hns])
      · exact ih st herr c hc2
    · simp only [hskip, if_false] at herr ⊢
      cases hexec : execCommand env hub st c0 with
      | error e => rw [hexec] at herr; simp at herr
      | ok st2 =>
        rw [hexec] at herr
        simp only at herr ⊢
        rcases List.mem_cons.mp hc with rfl | hc2
        · exact runCommands_preserves_built env hub rest st2 c
            (execCommand_builds_self env hub st c st2 hexec)
        · exact ih st2 herr c hc2

/-- With the sensors lacking stereo, the replay loop leaves every stereo
descriptor untouched (stereo commands are skipped, other commands do not
write stereo descriptors). -/
theorem runCommands_stereos_eq (env : Env) (hub : HubCamera)
    (hns : hub.hasStereo = false) :
    ∀ (cmds : List Command) (st : Store),
      (runCommands env hub st cmds).1.stereos = st.stereos := by
  intro cmds
  induction cmds with
  | nil => intro st; rfl
  | cons c0 rest ih =>
    intro st
    simp only [runCommands, hns, Bool.not_false, Bool.and_true]
    cases hsc : isStereoCmd c0 with
    | true => simp only [if_true]; exact ih st
    | false =>
      simp only [Bool.false_eq_true, if_false]
      cases hexec : execCommand env hub st c0 with
      | error e => rfl
      | ok st2 =>
        simp only
        rw [ih st2, execCommand_stereos env hub st c0 st2 hexec hsc]

/-- A command that is not a stereo command executes successfully whenever
its descriptor exists and the camera, network and trigger boundary calls
are set to succeed. -/
theorem execCommand_ok_of_wf (env : Env) (hub : HubCamera) (st : Store)
    (c : Command) (hcam : env.camFail = false) (hnn : env.nnFail = false)
    (htr : env.triggerFail = false) (hwf : cmdWellFormed st c)
    (hns : isStereoCmd c = false) :
    ∃ st2, execCommand env hub st c = Except.ok st2 := by
  cases c with
  | createCamera cid =>
    simp only [cmdWellFormed] at hwf
    obtain ⟨cam, hl⟩ := Option.isSome_iff_exists.mp hwf
    simp only [execCommand, hl, hcam, Bool.false_eq_true, if_false]
    exact ⟨_, rfl⟩
  | createNeuralNetwork nid =>
    simp only [cmdWellFormed] at hwf
    obtain ⟨nn, hl⟩ := Option.isSome_iff_exists.mp hwf
    simp only [execCommand, hl, hnn, Bool.false_eq_true, if_false]
    exact ⟨_, rfl⟩
  | createStereo sid => simp [isStereoCmd] at hns
  | createTriggerAction =>
    simp only [execCommand, htr, Bool.false_eq_true, if_false]
    exact ⟨st, rfl⟩

/-- With stereo absent from the sensors and the other boundary calls set
to succeed, the whole replay raises nothing: stereo commands are skipped
and every other command goes through. -/
theorem runCommands_no_stereo_ok (env : Env) (hub : HubCamera)
    (hcam : env.camFail = false) (hnn : env.nnFail = false)
    (htr : env.triggerFail = false) (hstereo : hub.hasStereo = false) :
    ∀ (cmds : List Command) (st : Store),
      (∀ c ∈ cmds, cmdWellFormed st c) →
      (runCommands env hub st cmds).2.2 = none := by
  intro cmds
  induction cmds with
  | nil => intro st _; rfl
  | cons c0 rest ih =>
    intro st hwf
    simp only [runCommands, hstereo, Bool.not_false, Bool.and_true]
    cases hsc : isStereoCmd c0 with
    | true => simp only [if_true]; exact ih st (fun c hc => hwf c (List.mem_cons_of_mem c0 hc))
    | false =>
      simp only [Bool.false_eq_true, if_false]
      obtain ⟨st2, hexec⟩ := execCommand_ok_of_wf env hub st c0 hcam hnn htr
        (hwf c0 (List.mem_cons_self c0 rest)) hsc
      rw [hexec]
      simp only
      exact ih st2 (fun c hc =>
        execCommand_preserves_wf env hub st c0 st2 hexec c
          (hwf c (List.mem_cons_of_mem c0 hc)))

/-- create_stream succeeds whenever the cloud call is set to succeed:
either the key is already registered and the handle is reused, or a fresh
stream is created. -/
theorem createStream_ok (hc : HubCamera) (env : Env) (g : GlobalStreams)
    (t : CompType) (key : Option Str) (hvid : env.createVideoFails = false) :
    ∃ r, hc.createStream env g t key = Except.ok r := by
  cases hl : alookup g (key.getD (autoKey hc.deviceName t)) with
  | some h0 =>
    simp only [HubCamera.createStream, hl]
    exact ⟨_, rfl⟩
  | none =>
    simp only [HubCamera.createStream, hl, HubCamera.createStreamHandle, createVideo,
      hvid, Bool.false_eq_true, if_false]
    exact ⟨_, rfl⟩

/-- The stream pass raises nothing when the cloud call succeeds and every
non-stereo command of the history has a built component: unbuilt stereo
components are filtered out, built components stream fine. -/
theorem streamPass_ok (env : Env) (st : Store)
    (hvid : env.createVideoFails = false) :
    ∀ (cmds : List Command) (hub : HubCamera) (g : GlobalStreams),
      (∀ c ∈ cmds, nonStereoBuilt st c) →
      (streamPass env st hub g cmds).2.2 = none := by
  intro cmds
  induction cmds with
  | nil => intro hub g _; rfl
  | cons c0 rest ih =>
    intro hub g hb
    simp only [streamPass]
    cases hcomp : getComponentInfo st c0 with
    | none => exact ih hub g (fun c hc => hb c (List.mem_cons_of_mem c0 hc))
    | some ci =>
      simp only
      by_cases hskip : (isStereoCmd c0 && ci.handle == none) = true
      · simp only [hskip, if_true]
        exact ih hub g (fun c hc => hb c (List.mem_cons_of_mem c0 hc))
      · simp only [hskip, if_false]
        cases hse : ci.streamEnabled with
        | false => simp only [Bool.false_eq_true, if_false]
                   exact ih hub g (fun c hc => hb c (List.mem_cons_of_mem c0 hc))
        | true =>
          simp only [if_true]
          have hhandle : ci.handle ≠ none := by
            cases hsc : isStereoCmd c0 with
            | true =>
              intro habs
              exact hskip (by rw [hsc, habs]; rfl)
            | false =>
              exact hb c0 (List.mem_cons_self c0 rest) hsc ci hcomp
          obtain ⟨h0, hh0⟩ := Option.ne_none_iff_exists'.mp hhandle
          obtain ⟨r, hr⟩ := createStream_ok hub env g ci.ctype ci.streamKey hvid
          simp only [execStream, hh0, hr]
          exact ih r.1 r.2 (fun c hc => hb c (List.mem_cons_of_mem c0 hc))

/-! # Claims -/

/-- C1: commands replay in push (FIFO) order.  Pushing a sequence of
commands yields the history in exactly that order; pop removes the most
recently pushed command; and on a device whose sensors support every
command (so nothing is skipped) the replay loop of Device._start executes
an initial segment of the history in that order, the whole history when
no command raised. -/
theorem C1_commandHistory_fifo_replay :
    ∀ (cmds : List Command) (h : CommandHistory) (c : Command) (env : Env)
      (hub : HubCamera) (g : GlobalStreams) (d : Device) (st : Store),
    (List.foldl CommandHistory.push [] cmds = cmds) ∧
    (CommandHistory.pop (h.push c) = some (c, h)) ∧
    (hub.hasStereo = true →
      ∃ k, (Device.start env d hub g st).trace = d.commandHistory.take k) ∧
    (hub.hasStereo = true → hub.oakCamera ≠ none →
      (runCommands env hub st d.commandHistory).2.2 = none →
      (Device.start env d hub g st).trace = d.commandHistory) := by
  intro cmds h c env hub g d st
  refine ⟨by simpa using foldl_push cmds [], pop_push h c, ?_, ?_⟩
  · intro hst
    cases hoak : hub.oakCamera with
    | none =>
      refine ⟨0, ?_⟩
      simp [Device.start, hoak]
    | some oak =>
      rw [start_trace_eq env d hub g st oak hoak]
      exact runCommands_trace_take env hub hst d.commandHistory st
  · intro hst hoak hnone
    cases hoak2 : hub.oakCamera with
    | none => exact absurd hoak2 hoak
    | some oak =>
      rw [start_trace_eq env d hub g st oak hoak2,
        runCommands_trace_all env hub hst d.commandHistory st hnone]

/-- C2: Device.get_camera is idempotent by name.  For a name not yet
requested, the first call allocates the descriptor and pushes exactly one
CreateCameraCommand; the second call with the same name returns the same
descriptor id and changes neither the device nor the store; across both
calls exactly one command was pushed.  The method is a pure state update:
no boundary call of Env appears in it. -/
theorem C2_getCamera_idempotent_by_name (d : Device) (st : Store) (n : Str)
    (r f r2 f2 : Option Nat) (h : alookup d.cameras n = none) :
    ((d.getCamera st n r f).2.1.getCamera (d.getCamera st n r f).2.2 n r2 f2).1
        = (d.getCamera st n r f).1 ∧
    ((d.getCamera st n r f).2.1.getCamera (d.getCamera st n r f).2.2 n r2 f2).2.1
        = (d.getCamera st n r f).2.1 ∧
    ((d.getCamera st n r f).2.1.getCamera (d.getCamera st n r f).2.2 n r2 f2).2.2
        = (d.getCamera st n r f).2.2 ∧
    (d.getCamera st n r f).2.1.commandHistory
        = d.commandHistory ++ [Command.createCamera (d.getCamera st n r f).1] := by
  have h2 := alookup_append_self d.cameras n st.nextId h
  simp only [Device.getCamera, h, h2]
  exact ⟨trivial, trivial, trivial, rfl⟩

/-- Witness for C2 at a concrete device: a fresh device, name 1, two calls. -/
theorem C2_witness :
    ((blankDevice.getCamera emptyStore 1 none none).2.1.getCamera
        (blankDevice.getCamera emptyStore 1 none none).2.2 1 (some 5) (some 6)).1
      = (blankDevice.getCamera emptyStore 1 none none).1 ∧
    ((blankDevice.getCamera emptyStore 1 none none).2.1.getCamera
        (blankDevice.getCamera emptyStore 1 none none).2.2 1 (some 5) (some 6)).2.1
      = (blankDevice.getCamera emptyStore 1 none none).2.1 ∧
    ((blankDevice.getCamera emptyStore 1 none none).2.1.getCamera
        (blankDevice.getCamera emptyStore 1 none none).2.2 1 (some 5) (some 6)).2.2
      = (blankDevice.getCamera emptyStore 1 none none).2.2 ∧
    (blankDevice.getCamera emptyStore 1 none none).2.1.commandHistory
      = blankDevice.commandHistory ++
          [Command.createCamera (blankDevice.getCamera emptyStore 1 none none).1] :=
  C2_getCamera_idempotent_by_name blankDevice emptyStore 1 none none (some 5) (some 6) rfl

/-- Destroying one handle with the ValueError guard is a filter on the
global registry. -/
theorem mem_destroyCaught (g : GlobalStreams) (h : Nat) (q : Str × Nat) :
    q ∈ destroyCaught g h ↔ q ∈ g ∧ q.2 ≠ h := by
  simp [destroyCaught]

/-- After folding the per-stream destroy calls of HubCamera.stop over the
local registry, no destroyed handle survives in the global registry. -/
theorem mem_foldl_destroyCaught :
    ∀ (l : List (Str × Nat)) (g : GlobalStreams) (q : Str × Nat),
      q ∈ l.foldl (fun acc p => destroyCaught acc p.2) g →
      q ∈ g ∧ ∀ p ∈ l, q.2 ≠ p.2 := by
  intro l
  induction l with
  | nil => intro g q hq; exact ⟨hq, by simp⟩
  | cons p rest ih =>
    intro g q hq
    simp only [List.foldl_cons] at hq
    obtain ⟨hmem, hrest⟩ := ih (destroyCaught g p.2) q hq
    rw [mem_destroyCaught] at hmem
    refine ⟨hmem.1, ?_⟩
    intro p2 hp2
    rcases List.mem_cons.mp hp2 with h1 | h2
    · subst h1; exact hmem.2
    · exact hrest p2 h2

/-- C6: HubCamera.stop is idempotent.  One call empties the local stream
registry (destroying every registered handle from the global registry),
sets the state to DISCONNECTED, drops the capability object and clears
the sensor metadata; a second call on the stopped camera is the identity
on both the camera and the global registry, and the function is total
(the only internal exception, ValueError from a missing handle, is
caught inside destroyCaught). -/
theorem C6_hubCamera_stop_idempotent :
    ∀ (hc : HubCamera) (g : GlobalStreams),
    ((hc.stop g).1.streams = [] ∧
     (hc.stop g).1.state = DeviceState.disconnected ∧
     (hc.stop g).1.oakCamera = none ∧
     (hc.stop g).1.availableSensors = []) ∧
    (∀ p ∈ hc.streams, ∀ q ∈ (hc.stop g).2, q.2 ≠ p.2) ∧
    HubCamera.stop (hc.stop g).1 (hc.stop g).2 = hc.stop g := by
  intro hc g
  refine ⟨⟨rfl, rfl, rfl, rfl⟩, ?_, ?_⟩
  · intro p hp q hq
    exact (mem_foldl_destroyCaught hc.streams g q hq).2 p hp
  · cases hc
    rfl

/-- The retry loop returns False once every attempt inside the 10 second
window has failed, provided the stop event never interrupts it. -/
theorem startLoop_timeout (att stopSet : Nat → Bool)
    (hstop : ∀ j, stopSet j = false) (hatt : ∀ j, j ≤ 11 → att j = false) :
    ∀ (fuel i : Nat), i ≤ 11 → 11 < i + fuel →
      startLoop att stopSet fuel i = some false := by
  intro fuel
  induction fuel with
  | zero => intro i hi hfuel; omega
  | succ f ih =>
    intro i hi hfuel
    simp only [startLoop, hstop i, hatt i hi, Bool.false_eq_true, if_false]
    by_cases hgt : i > 10
    · simp [hgt]
    · have : ¬ (decide (i > 10) = true) := by simpa using hgt
      simp only [this, if_false]
      exact ih (i + 1) (by omega) (by omega)

/-- The retry loop returns True at the first successful attempt, provided
it lies inside the window and the stop event never interrupts. -/
theorem startLoop_success (att stopSet : Nat → Bool)
    (hstop : ∀ j, stopSet j = false) (i0 : Nat) (hi0 : i0 ≤ 11)
    (hhit : att i0 = true) (hprev : ∀ j, j < i0 → att j = false) :
    ∀ (fuel i : Nat), i ≤ i0 → i0 < i + fuel →
      startLoop att stopSet fuel i = some true := by
  intro fuel
  induction fuel with
  | zero => intro i hi hfuel; omega
  | succ f ih =>
    intro i hi hfuel
    simp only [startLoop, hstop i, Bool.false_eq_true, if_false]
    by_cases heq : i = i0
    · subst heq; simp [hhit]
    · have hlt : i < i0 := by omega
      simp only [hprev i hlt, Bool.false_eq_true, if_false]
      have : ¬ (decide (i > 10) = true) := by
        simp only [decide_eq_true_eq]
        omega
      simp only [this, if_false]
      exact ih (i + 1) (by omega) (by omega)

/-- C7: HubCamera.start retries within a bounded window.  When the stop
event never fires: if some attempt inside the window succeeds (all
earlier ones failing), start returns True and the state becomes
CONNECTED; if every attempt inside the window fails, start returns False
(a value, not an exception and not the fall-through None) and leaves the
camera unchanged. -/
theorem C7_hubCamera_start_timeout (hc : HubCamera) (att stopSet : Nat → Bool)
    (hstop : ∀ j, stopSet j = false) :
    (∀ i0, i0 ≤ 11 → att i0 = true → (∀ j, j < i0 → att j = false) →
      (hc.start att stopSet).1 = some true ∧
      (hc.start att stopSet).2.state = DeviceState.connected) ∧
    (hc.state ≠ DeviceState.connected → (∀ j, j ≤ 11 → att j = false) →
      (hc.start att stopSet).1 = some false ∧ (hc.start att stopSet).2 = hc) := by
  constructor
  · intro i0 hi0 hhit hprev
    by_cases hconn : hc.state = DeviceState.connected
    · constructor
      · simp [HubCamera.start, hconn]
      · simp [HubCamera.start, hconn]
    · have hloop := startLoop_success att stopSet hstop i0 hi0 hhit hprev 13 0
        (by omega) (by omega)
      constructor
      · simp [HubCamera.start, hconn, hloop]
      · simp [HubCamera.start, hconn, hloop]
  · intro hconn hatt
    have hloop := startLoop_timeout att stopSet hstop hatt 13 0 (by omega) (by omega)
    constructor
    · simp [HubCamera.start, hconn, hloop]
    · simp [HubCamera.start, hconn, hloop]

/-- Witness for C7: with two failing attempts then a success, start
returns True and connects. -/
theorem C7_witness :
    (freshHub.start attThird (fun _ => false)).1 = some true ∧
    (freshHub.start attThird (fun _ => false)).2.state = DeviceState.connected :=
  (C7_hubCamera_start_timeout freshHub attThird (fun _ => false) (fun _ => rfl)).1
    2 (by omega) (by decide)
    (fun j hj => by
      simp only [attThird, decide_eq_false_iff_not]
      omega)

/-- C8: shutdown order of DeviceManager.stop.  The trace opens with the
stop event; it splits into a segment holding the three thread joins (in
connection, reporting, polling order) and the single stream-destruction
step, followed by a segment holding only the per-camera steps; hence
every stream destruction precedes every camera close.  Per-resource
failures are suppressed: whatever the failure flags, every live camera
still gets its close step. -/
theorem C8_managerStop_order :
    ∀ inp : MgrInput,
    ((managerStop inp).head? = some StopEv.setStopEvent) ∧
    (∃ pre post, managerStop inp = pre ++ post ∧
      (∀ e ∈ pre, isCloseEv e = false) ∧
      (∀ e ∈ post, isDestroyEv e = false) ∧
      (if inp.destroyAllFails then StopEv.destroyAllStreamsFailed
       else StopEv.destroyedAllStreams) ∈ pre ∧
      gracefulThreadJoin ThreadId.connection inp.connectionThread ∈ pre ∧
      gracefulThreadJoin ThreadId.reporting inp.reportingThread ∈ pre ∧
      gracefulThreadJoin ThreadId.polling inp.pollingThread ∈ pre) ∧
    (∀ c ∈ inp.cameras, c.state ≠ DeviceState.disconnected →
      StopEv.closedCamera c.name ∈ managerStop inp ∨
      StopEv.closeCameraFailed c.name ∈ managerStop inp) := by
  intro inp
  refine ⟨rfl, ?_, ?_⟩
  · refine ⟨[StopEv.setStopEvent,
      gracefulThreadJoin ThreadId.connection inp.connectionThread,
      gracefulThreadJoin ThreadId.reporting inp.reportingThread,
      gracefulThreadJoin ThreadId.polling inp.pollingThread,
      (if inp.destroyAllFails then StopEv.destroyAllStreamsFailed
       else StopEv.destroyedAllStreams)],
      inp.cameras.map stopCameraStep, rfl, ?_, ?_, ?_, ?_, ?_, ?_⟩
    · intro e he
      simp only [List.mem_cons, List.mem_singleton] at he
      rcases he with h | h | h | h | h | h
      · subst h; rfl
      · subst h
        unfold gracefulThreadJoin
        by_cases ha : inp.connectionThread.alive <;>
          by_cases hf : inp.connectionThread.joinFails <;> simp [ha, hf, isCloseEv]
      · subst h
        unfold gracefulThreadJoin
        by_cases ha : inp.reportingThread.alive <;>
          by_cases hf : inp.reportingThread.joinFails <;> simp [ha, hf, isCloseEv]
      · subst h
        unfold gracefulThreadJoin
        by_cases ha : inp.pollingThread.alive <;>
          by_cases hf : inp.pollingThread.joinFails <;> simp [ha, hf, isCloseEv]
      · subst h
        by_cases hd : inp.destroyAllFails <;> simp [hd, isCloseEv]
      · simp at h
    · intro e he
      simp only [List.mem_map] at he
      obtain ⟨c, _, hc⟩ := he
      subst hc
      unfold stopCameraStep
      by_cases hs : c.state = DeviceState.disconnected
      · simp [hs, isDestroyEv]
      · by_cases hf : c.stopFails <;> simp [hs, hf, isDestroyEv]
    · by_cases hd : inp.destroyAllFails <;> simp [hd]
    · simp
    · simp
    · simp
  · intro c hc hlive
    have hmem : stopCameraStep c ∈ managerStop inp := by
      unfold managerStop
      simp only [List.mem_append, List.mem_map]
      exact Or.inr ⟨c, hc, rfl⟩
    unfold stopCameraStep at hmem
    by_cases hf : c.stopFails
    · right
      simpa [hlive, hf] using hmem
    · left
      simpa [hlive, hf] using hmem

/-- Each disjunct of Device.__eq__ is symmetric: a truthy field equal on
both sides is truthy on both sides. -/
theorem truthyBeq_symm (x y : Option Str) :
    (isTruthy x && x == y) = (isTruthy y && y == x) := by
  cases x with
  | none => cases y <;> simp [isTruthy]
  | some s1 =>
    cases y with
    | none => simp [isTruthy]
    | some s2 =>
      by_cases h : s1 = s2
      · subst h; rfl
      · have h1 : (s1 == s2) = false := by simp [h]
        have h2 : (s2 == s1) = false := by simp [Ne.symm h]
        simp [isTruthy, h1, h2]

/-- Device equality between Device operands is symmetric. -/
theorem eqDevice_symm (a b : Device) : eqDevice a b = eqDevice b a := by
  unfold eqDevice
  rw [truthyBeq_symm a.id b.id, truthyBeq_symm a.name b.name,
    truthyBeq_symm a.mxid b.mxid, truthyBeq_symm a.ipAddress b.ipAddress]

/-- Counterexample to C10 as stated: on devEmptyId the id field is set
(not None) and equal on both operands, but Device.__eq__ returns False;
"set" in the claim has to mean truthy (neither None nor empty).  The
symmetry half of the amended claim is eqDevice_symm. -/
theorem C10_counterexample_empty_id :
    devEmptyId.id ≠ none ∧ devEmptyId.id = devEmptyId.id ∧
      eqDevice devEmptyId devEmptyId = false := by
  refine ⟨by simp [devEmptyId, mkDevice], rfl, rfl⟩

/-- C10 amended: Device.__eq__ returns True for another Device exactly
when some identity field is truthy (not None, not empty) on the left and
equal on both; for a string, exactly when the string equals one of the
four fields; get_device returns an already-registered device (without
re-registering) whenever some registered device compares equal to the
query; and the equality is symmetric between Devices but not transitive. -/
theorem C10_device_equality_amended :
    (∀ a b : Device, eqDevice a b = eqDevice b a) ∧
    (eqDevice devA devB = true ∧ eqDevice devB devC = true ∧
      eqDevice devA devC = false) ∧
    (∀ (registered : List Device) (id name mxid ip : Option Str) (d : Device),
      (isTruthy id || isTruthy name || isTruthy mxid || isTruthy ip) = true →
      d ∈ registered → eqDevice d (mkDevice id name mxid ip) = true →
      ∃ d2, getDevice registered id name mxid ip = Except.ok (d2, registered) ∧
        d2 ∈ registered ∧ eqDevice d2 (mkDevice id name mxid ip) = true) ∧
    (∀ (a : Device) (s : Str), eqDeviceStr a s = true ↔
      (a.id = some s ∨ a.name = some s ∨ a.mxid = some s ∨ a.ipAddress = some s)) := by
  refine ⟨eqDevice_symm, by decide, ?_, ?_⟩
  · intro registered id name mxid ip d hvalid hmem heq
    have hfind : (registered.find? (fun x => eqDevice x (mkDevice id name mxid ip))).isSome := by
      rw [List.find?_isSome]
      exact ⟨d, hmem, heq⟩
    obtain ⟨d2, hd2⟩ := Option.isSome_iff_exists.mp hfind
    have h3 := List.find?_some hd2
    refine ⟨d2, ?_, List.mem_of_find?_eq_some hd2, h3⟩
    simp [getDevice, hvalid, hd2]
  · intro a s
    simp [eqDeviceStr, or_assoc]

/-- C3: stereo on unsupported hardware.  With a bound capability object
whose sensors lack the left/right pair, and the other boundary calls set
to succeed, _start skips the stereo command (warning only) and returns
True; the stereo descriptor's built handle stays None; while a direct
HubCamera.create_stereo call on the same camera raises RuntimeError. -/
theorem C3_stereo_skip_vs_direct_raise (env : Env) (hub : HubCamera)
    (g : GlobalStreams) (d : Device) (st : Store) (oak : OakCamera)
    (hoak : hub.oakCamera = some oak)
    (hstereo : hub.hasStereo = false)
    (henv : env.ok)
    (hwf : ∀ c ∈ d.commandHistory, cmdWellFormed st c)
    (hunbuilt : ∀ sid s, Command.createStereo sid ∈ d.commandHistory →
      alookup st.stereos sid = some s → s.stereoComponent = none) :
    (Device.start env d hub g st).returned = Except.ok true ∧
    (∀ sid s, Command.createStereo sid ∈ d.commandHistory →
      alookup (Device.start env d hub g st).store.stereos sid = some s →
      s.stereoComponent = none) ∧
    (∀ hdl, hub.createStereo env hdl = Except.error PyErr.runtimeError) := by
  obtain ⟨hc1, hn1, hs1, ht1, hv1⟩ := henv
  have hrun := runCommands_no_stereo_ok env hub hc1 hn1 ht1 hstereo
    d.commandHistory st hwf
  have hstereos := runCommands_stereos_eq env hub hstereo d.commandHistory st
  have hbuilt := runCommands_builds env hub d.commandHistory st hrun
  rcases hr : runCommands env hub st d.commandHistory with ⟨st2, tr, e⟩
  rw [hr] at hrun hstereos hbuilt
  simp only at hrun hstereos hbuilt
  subst hrun
  have hsp := streamPass_ok env st2 hv1 d.commandHistory hub g hbuilt
  rcases hsp2 : streamPass env st2 hub g d.commandHistory with ⟨hub2, g2, e2⟩
  rw [hsp2] at hsp
  simp only at hsp
  subst hsp
  refine ⟨?_, ?_, ?_⟩
  · simp [Device.start, hoak, hr, hsp2]
  · intro sid s hmem hlook
    simp only [Device.start, hoak, hr, hsp2] at hlook
    rw [hstereos] at hlook
    exact hunbuilt sid s hmem hlook
  · intro hdl
    simp [HubCamera.createStereo, hstereo]

/-- Witness for C3: a device with one stereo command against a camera
with only an RGB sensor: _start returns True, create_stereo raises. -/
theorem C3_witness :
    (Device.start envAllOk stereoDevDemo freshHub [] stereoStoreDemo).returned
      = Except.ok true ∧
    freshHub.createStereo envAllOk 0 = Except.error PyErr.runtimeError := by
  have h := C3_stereo_skip_vs_direct_raise envAllOk freshHub [] stereoDevDemo
    stereoStoreDemo { sensors := [Sensor.rgb], productName := 9 } rfl (by decide)
    ⟨rfl, rfl, rfl, rfl, rfl⟩
    (by
      intro c hc
      simp only [stereoDevDemo, List.mem_singleton] at hc
      subst hc
      rfl)
    (by
      intro sid s hmem hlook
      simp only [stereoDevDemo, List.mem_singleton, Command.createStereo.injEq] at hmem
      subst hmem
      simp only [stereoStoreDemo, emptyStore, alookup, List.find?] at hlook
      simp only [beq_self_eq_true, Option.map_some] at hlook
      cases hlook
      rfl)
  exact ⟨h.1, h.2.2 0⟩

/-- Counterexample to C4 as stated: the main replay succeeds, then the
stream-creation pass raises (cloud call failing twice), and the exception
escapes _start instead of being converted to False - the try block of
_start covers only the main loop. -/
theorem C4_counterexample_stream_pass_raises :
    (Device.start envVideoFail streamDevDemo freshHub [] streamStoreDemo).returned
      = Except.error PyErr.exc := by
  rfl

/-- C4 amended: exceptions in the main replay loop are caught and become
the return value False; _start then never propagates an exception as long
as the stream-creation pass cannot fail (here: the cloud call succeeds);
only the stream pass can make an exception escape. -/
theorem C4_start_error_policy_amended (env : Env) (hub : HubCamera)
    (g : GlobalStreams) (d : Device) (st : Store)
    (hvid : env.createVideoFails = false) :
    (∃ b, (Device.start env d hub g st).returned = Except.ok b) ∧
    ((runCommands env hub st d.commandHistory).2.2 ≠ none →
      (Device.start env d hub g st).returned = Except.ok false) := by
  cases hoak : hub.oakCamera with
  | none =>
    refine ⟨⟨false, ?_⟩, fun _ => ?_⟩ <;> simp [Device.start, hoak]
  | some oak =>
    rcases hr : runCommands env hub st d.commandHistory with ⟨st2, tr, e⟩
    cases e with
    | some e0 =>
      refine ⟨⟨false, ?_⟩, fun _ => ?_⟩ <;> simp [Device.start, hoak, hr]
    | none =>
      have hbuilt := runCommands_builds env hub d.commandHistory st (by rw [hr])
      rw [hr] at hbuilt
      simp only at hbuilt
      have hsp := streamPass_ok env st2 hvid d.commandHistory hub g hbuilt
      rcases hsp2 : streamPass env st2 hub g d.commandHistory with ⟨hub2, g2, e2⟩
      rw [hsp2] at hsp
      simp only at hsp
      subst hsp
      refine ⟨⟨true, ?_⟩, fun habs => ?_⟩
      · simp [Device.start, hoak, hr, hsp2]
      · simp at habs

/-- Witness for C4 amended, at the C3 sample input: _start returns a
boolean, no exception. -/
theorem C4_witness :
    ∃ b, (Device.start envAllOk stereoDevDemo freshHub [] stereoStoreDemo).returned
      = Except.ok b :=
  (C4_start_error_policy_amended envAllOk freshHub [] stereoDevDemo
    stereoStoreDemo rfl).1

/-- Counterexample to C5 as stated: restart returns True although the
hardware was available (avail is some capability object), yet after the
call the bound camera has no capability object and is DISCONNECTED - the
restart did not succeed.  stop() sets the stop event, so the
init_oak_camera loop never runs, and the False of the re-invoked _start
is discarded. -/
theorem C5_counterexample_restart_reports_true :
    (Device.restart envAllOk boundDevDemo [] emptyStore (some oakDemo)).1 = true ∧
    ((Device.restart envAllOk boundDevDemo [] emptyStore (some oakDemo)).2.1.hubCamera.map
        (fun hc => (hc.oakCamera, hc.state)))
      = some (none, DeviceState.disconnected) :=
  ⟨rfl, rfl⟩

/-- C5 amended: restart stops the bound camera and re-invokes _start, but
its boolean result is discarded and the except path is unreachable (the
embedded stop and close are total and _start on a camera without a
capability object returns False without raising), so restart always
returns True; and because stop() sets the camera's stop event,
init_oak_camera yields None whatever the hardware would offer, leaving
the device bound to a fully stopped camera with no capability object in
the DISCONNECTED state. -/
theorem C5_restart_amended (env : Env) (d : Device) (g : GlobalStreams)
    (st : Store) (avail : Option OakCamera) :
    (Device.restart env d g st avail).1 = true ∧
    (∀ hc, d.hubCamera = some hc →
      ∃ hc2, (Device.restart env d g st avail).2.1.hubCamera = some hc2 ∧
        hc2.oakCamera = none ∧ hc2.state = DeviceState.disconnected) := by
  cases hhc : d.hubCamera with
  | none =>
    constructor
    · simp [Device.restart, hhc]
    · intro hc habs
      exact absurd habs (by simp)
  | some hc =>
    constructor
    · simp [Device.restart, hhc, HubCamera.stop, HubCamera.initOakCamera, Device.start]
    · intro hc0 heq
      simp only [Option.some.injEq] at heq
      subst heq
      refine ⟨{ hc with
                  stopEventSet := true, streams := [],
                  state := DeviceState.disconnected, oakCamera := none,
                  availableSensors := [] }, ?_, rfl, rfl⟩
      simp [Device.restart, hhc, HubCamera.stop, HubCamera.initOakCamera, Device.start]

/-- C9, evaluated at the failing input: two create_neural_network calls
with the same name both succeed, return distinct descriptors (ids 1 and
2) and push two CreateNeuralNetworkCommands, and the neural_networks
dictionary stays empty - the method checks it but never writes it, so
idempotency by name cannot trigger.  The missing-input call raises
ValueError as the claim says, and the NN-chaining rejection lives in the
robothub_depthai layer (NotImplementedError), not in robothub_oak. -/
theorem C9_createNeuralNetwork_not_registered :
    afterTwoNNCalls.map
        (fun r => (r.1, r.2.1, r.2.2.neuralNetworks, countNNCommands r.2.2.commandHistory))
      = some (1, 2, [], 2) ∧
    blankDevice.createNeuralNetwork emptyStore 2 none none false none
      = Except.error PyErr.valueError ∧
    depthaiCreateNeuralNetwork [] 0 (NNInput.nn 5)
      = Except.error PyErr.notImplementedError := by
  refine ⟨?_, rfl, rfl⟩
  rfl

end RobotHub
